import Mathlib

/-
  Shallow embedding of the OTP-gated state-machine layer of the
  concreexpo-backend repository:

  * `src/services/sms.service.ts`            — phone normalization
  * `src/utils/otp.ts` and `src/utils/jwt.ts` (the third and second
    documents concatenated inside controllers/material.controller.ts)
      isOTPExpired, MSG91OTPPayload / verifyMSG91OTPToken
  * `src/controllers/appointment.controller.ts`
      sendOTP / resendOTP / verifyOTP / verifyOTPWithWidget / submitFeedback
  * `src/controllers/workerVisit.controller.ts`
      createVisit / resendOTP / submitWorkerCountWithWidget

  Conventions of the embedding:
  * Timestamps are milliseconds since the epoch, as `Nat` (JS `Date.getTime()`).
  * Database lookups (`prisma.*.findUnique/findFirst`) are passed in as
    `Option`-valued inputs; updates are returned as the post-state record.
  * The SMS gateway and the MSG91 widget-verification endpoint are external
    collaborators; their outcomes enter as `Bool` oracle parameters, and an
    embedding that contacts the provider reports this in an explicit
    `Bool` component of its result (`true` iff the HTTP call was reached).
  * HTTP error responses are represented by the `ApiError` type below.
-/

deriving instance DecidableEq for Except

namespace Concreexpo

/-- Embedding of `isOTPExpired` from `utils/otp.ts` (the third document
inside material.controller.ts, lines 362–367):
`new Date() > expiryDate`, i.e. expired exactly when `expiresAt < now`,
strictly — a check performed exactly at the expiry instant is still
valid. -/
def isOTPExpired (expiresAt now : Nat) : Bool :=
  decide (expiresAt < now)

/-- Digits kept by the strip-non-digits regex replace step of
`normalizePhoneNumber` (sms.service.ts line 25). -/
def stripNonDigits (s : String) : String :=
  String.mk (s.toList.filter Char.isDigit)

/-- JS prefix test of the digit string against "91"
(`cleaned.startsWith`), written on the character list so it evaluates by
kernel reduction. -/
def startsWith91 (s : String) : Bool :=
  match s.toList with
  | '9' :: '1' :: _ => true
  | _ => false

/-- JS prefix test of the digit string against a leading zero. -/
def startsWith0 (s : String) : Bool :=
  match s.toList with
  | '0' :: _ => true
  | _ => false

/-- JS substring keeping the first `n` characters of a digit string. -/
def takeChars (s : String) (n : Nat) : String :=
  String.mk (s.toList.take n)

/-- JS substring discarding the first `n` characters of a digit string. -/
def dropChars (s : String) (n : Nat) : String :=
  String.mk (s.toList.drop n)

/-- Whitespace removed by the JS `String.prototype.trim`. -/
def isTrimmedSpace (c : Char) : Bool :=
  c = ' ' ∨ c = '\t' ∨ c = '\n' ∨ c = '\r'

/-- JS `s.trim()`: strips leading and trailing whitespace. -/
def jsTrim (s : String) : String :=
  String.mk
    (((s.toList.dropWhile isTrimmedSpace).reverse.dropWhile isTrimmedSpace).reverse)

/-- Embedding of `normalizePhoneNumber` (sms.service.ts lines 19–74).
`none` is the `null` return of the source. -/
def normalizePhoneNumber (phone : String) : Option String :=
  if phone = "" then none
  else
    let cleaned := stripNonDigits phone
    if cleaned = "" then none
    else if startsWith91 cleaned then
      if cleaned.length = 12 then some cleaned
      else if 12 < cleaned.length then some (takeChars cleaned 12)
      else none
    else if cleaned.length = 10 then some ("91" ++ cleaned)
    else if cleaned.length = 11 ∧ startsWith0 cleaned then
      some ("91" ++ dropChars cleaned 1)
    else if 10 < cleaned.length ∧ cleaned.length ≤ 13 then
      if startsWith0 cleaned ∧ cleaned.length = 11 then
        some ("91" ++ dropChars cleaned 1)
      else some cleaned
    else none

/-- Appointment lifecycle states (prisma enum used by
appointment.controller.ts). -/
inductive AppointmentStatus
  | SCHEDULED
  | OTP_SENT
  | VERIFIED
  | COMPLETED
  | CANCELLED
  deriving DecidableEq, Repr

/-- Worker-visit lifecycle states (prisma enum used by
workerVisit.controller.ts). -/
inductive VisitStatus
  | PENDING
  | OTP_VERIFIED
  | COMPLETED
  deriving DecidableEq, Repr

/-- Error outcomes of the controller operations, mirroring the non-2xx
JSON responses of the source (the payload-carrying constructors keep the
fields the source reports back to the caller). -/
inductive ApiError
  | validation
  | notFound
  | accessDenied
  | statusConflict
  | rateLimit (retryAfter : Int)
  | otpNotSent
  | otpExpired
  | otpAttemptsExceeded
  | otpMismatch (attemptsRemaining : Int)
  | deliveryFailure
  | invalidToken
  | externalVerification
  deriving DecidableEq, Repr

/-- The Appointment row fields read or written by the OTP operations of
appointment.controller.ts (`client.primaryContact` is the included
client relation contact). -/
structure Appointment where
  engineerId : String
  clientPrimaryContact : String
  otpMobileNumber : Option String
  otp : Option String
  otpExpiresAt : Option Nat
  otpSentAt : Option Nat
  otpAttempts : Nat
  verifiedAt : Option Nat
  status : AppointmentStatus
  feedback : Option String
  deriving DecidableEq, Repr

/-- The WorkerVisit row fields read or written by the OTP operations of
workerVisit.controller.ts (client relation fields inlined). -/
structure WorkerVisit where
  engineerId : String
  clientPrimaryContact : String
  clientName : String
  visitDate : Nat
  otp : Option String
  otpExpiresAt : Option Nat
  otpSentAt : Option Nat
  workerCount : Option Int
  remarks : Option String
  verifiedAt : Option Nat
  status : VisitStatus
  deriving DecidableEq, Repr

/-- The `purpose` discriminator of the MSG91 widget token payload
(utils/jwt.ts, second document inside material.controller.ts,
lines 282–289). -/
inductive OTPPurpose
  | appointment
  | worker_visit
  deriving DecidableEq, Repr

/-- Embedding of the `MSG91OTPPayload` interface from `utils/jwt.ts`
(the second document inside material.controller.ts, lines 282–289):
the claim set `{phone, appointmentId?, visitId?, purpose, expiresIn?}`.
`verifyMSG91OTPToken` (lines 317–327) returns the decoded payload, or
`null` when `jwt.verify` rejects the token (bad signature, malformed,
expired); that check happens inside the external `jsonwebtoken`
library, so the decode result enters the controller embeddings as an
`Option MSG91OTPPayload` input. -/
structure MSG91OTPPayload where
  phone : String
  appointmentId : Option String := none
  visitId : Option String := none
  purpose : OTPPurpose
  expiresIn : Option Nat := none
  deriving DecidableEq, Repr

/-- Recipient selection `appointment.otpMobileNumber ||
appointment.client.primaryContact` (appointment.controller.ts lines
413, 510, 615); the JS `||` also skips an empty-string override. -/
def recipientPhoneOf (a : Appointment) : String :=
  match a.otpMobileNumber with
  | some m => if m = "" then a.clientPrimaryContact else m
  | none => a.clientPrimaryContact

/-- The 60-second resend cooldown (appointment.controller.ts lines
490–503 and workerVisit.controller.ts): given the recorded send time and
now, returns `some retryAfter` when the call must be rejected with
HTTP 429, where `retryAfter = Math.ceil((60000 - elapsed) / 1000)`
(via the identity `ceil (x / 1000) = (x + 999).ediv 1000`). -/
def resendCooldown (sentAt now : Nat) : Option Int :=
  let elapsed : Int := (now : Int) - (sentAt : Int)
  if elapsed < 60000 then some ((60000 - elapsed + 999).ediv 1000) else none

namespace Appointment

/-- Embedding of `sendOTP` (appointment.controller.ts lines 378–455).
Inputs after the `findUnique` result `a`: the caller id, the freshly
generated code and expiry, the wall clock, and the gateway outcome of
`sendVisitOTP` as the oracle `delivered`.  Returns the response outcome
and the (possibly updated) appointment row. -/
def sendOTP (a : Appointment) (userId newOtp : String) (newExpiry now : Nat)
    (delivered : Bool) : Except ApiError Unit × Appointment :=
  if a.engineerId ≠ userId then (.error .accessDenied, a)
  else if a.status = .COMPLETED then (.error .statusConflict, a)
  else
    let recipientPhone := recipientPhoneOf a
    if recipientPhone = "" ∨ jsTrim recipientPhone = "" then (.error .validation, a)
    else if ¬ delivered then (.error .deliveryFailure, a)
    else
      (.ok (), { a with otp := some newOtp, otpExpiresAt := some newExpiry,
                        otpSentAt := some now, otpAttempts := 0,
                        status := .OTP_SENT })

/-- Shared tail of `resendOTP` after the cooldown guard
(appointment.controller.ts lines 505–574): recipient validation, the
gateway call, and the conditional update. -/
def resendOTPBody (a : Appointment) (newOtp : String) (newExpiry now : Nat)
    (delivered : Bool) : Except ApiError Unit × Appointment :=
  let recipientPhone := recipientPhoneOf a
  if recipientPhone = "" ∨ jsTrim recipientPhone = "" then (.error .validation, a)
  else if ¬ delivered then (.error .deliveryFailure, a)
  else
    (.ok (), { a with otp := some newOtp, otpExpiresAt := some newExpiry,
                      otpSentAt := some now, otpAttempts := 0,
                      status := .OTP_SENT })

/-- Embedding of `resendOTP` (appointment.controller.ts lines 460–579):
like `sendOTP` but with the 60-second cooldown guard keyed off
`otpSentAt` between the status check and the new send. -/
def resendOTP (a : Appointment) (userId newOtp : String) (newExpiry now : Nat)
    (delivered : Bool) : Except ApiError Unit × Appointment :=
  if a.engineerId ≠ userId then (.error .accessDenied, a)
  else if a.status = .COMPLETED then (.error .statusConflict, a)
  else
    match a.otpSentAt with
    | some sentAt =>
      match resendCooldown sentAt now with
      | some r => (.error (.rateLimit r), a)
      | none => resendOTPBody a newOtp newExpiry now delivered
    | none => resendOTPBody a newOtp newExpiry now delivered

/-- Embedding of `verifyOTP` (appointment.controller.ts lines 736–813).
`code` is the submitted `req.body.otp` (the empty string standing for
the JS-falsy missing body field). -/
def verifyOTP (a : Appointment) (userId code : String) (now : Nat) :
    Except ApiError Unit × Appointment :=
  if code = "" then (.error .validation, a)
  else if a.engineerId ≠ userId then (.error .accessDenied, a)
  else
    match a.otp, a.otpExpiresAt with
    | some o, some exp =>
      if o = "" then (.error .otpNotSent, a)
      else if isOTPExpired exp now then (.error .otpExpired, a)
      else if 3 ≤ a.otpAttempts then (.error .otpAttemptsExceeded, a)
      else if o ≠ code ∧ code ≠ "000000" then
        (.error (.otpMismatch ((2 : Int) - (a.otpAttempts : Int))),
         { a with otpAttempts := a.otpAttempts + 1 })
      else
        (.ok (), { a with status := .VERIFIED, verifiedAt := some now,
                          otpAttempts := a.otpAttempts + 1 })
    | _, _ => (.error .otpNotSent, a)

/-- Embedding of `verifyOTPWithWidget` (appointment.controller.ts lines
652–731).  `decoded` is the result of `verifyMSG91OTPToken(accessToken)`
(jwt utils modelled per spec §4.6), `providerSuccess` the discriminator of
the MSG91 `verifyAccessToken` HTTP response, and `lookup` the
`findUnique` result, which the source only loads after the provider
round-trip.  The last component of the result is `true` exactly when the
control flow reaches the provider HTTP call. -/
def verifyOTPWithWidget (id : String) (accessToken : Option String)
    (decoded : Option MSG91OTPPayload) (providerSuccess : Bool)
    (lookup : Option Appointment) (userId : String) (now : Nat) :
    Except ApiError Unit × Option Appointment × Bool :=
  match accessToken with
  | none => (.error .validation, lookup, false)
  | some tok =>
    if tok = "" then (.error .validation, lookup, false)
    else
      match decoded with
      | none => (.error .invalidToken, lookup, false)
      | some p =>
        if p.appointmentId ≠ some id then (.error .invalidToken, lookup, false)
        else if ¬ providerSuccess then (.error .externalVerification, lookup, true)
        else
          match lookup with
          | none => (.error .notFound, none, true)
          | some a =>
            if a.engineerId ≠ userId then (.error .accessDenied, some a, true)
            else
              (.ok (), some { a with status := .VERIFIED,
                                     verifiedAt := some now,
                                     otpAttempts := 0 }, true)

/-- Embedding of `submitFeedback` (appointment.controller.ts lines
818–864): requires status VERIFIED, stores the trimmed feedback and
moves the appointment to COMPLETED. -/
def submitFeedback (a : Appointment) (userId feedback : String) :
    Except ApiError Unit × Appointment :=
  if feedback = "" ∨ (jsTrim feedback).length < 10 then (.error .validation, a)
  else if a.engineerId ≠ userId then (.error .accessDenied, a)
  else if a.status ≠ .VERIFIED then (.error .statusConflict, a)
  else (.ok (), { a with feedback := some (jsTrim feedback), status := .COMPLETED })

end Appointment

/-- Client row fields consumed by `createVisit`
(workerVisit.controller.ts lines 43–50). -/
structure ClientRec where
  name : String
  primaryContact : String
  deriving DecidableEq, Repr

/-- Authenticated caller roles (`req.user?.role`). -/
inductive Role
  | ADMIN
  | ENGINEER
  deriving DecidableEq, Repr

/-- Admin phone resolution: the settings value when truthy, else the
ADMIN_PHONE environment value, else the empty string
(workerVisit.controller.ts lines 94–98). -/
def adminPhoneOf (setting env : Option String) : String :=
  let s := setting.getD ""
  if s ≠ "" then s else env.getD ""

namespace WorkerVisit

/-- Target engineer resolution of `createVisit`
(workerVisit.controller.ts lines 27–35): admins may pick a (truthy)
`engineerId` from the body, everyone else gets their own user id. -/
def targetEngineerOf (userId : Option String) (role : Role)
    (engineerIdBody : Option String) : Option String :=
  match role, engineerIdBody with
  | .ADMIN, some e => if e = "" then userId else some e
  | _, _ => userId

/-- Embedding of `createVisit` (workerVisit.controller.ts lines 16–135).
`client` and `engineerName` are the `findFirst` lookup results for the
requested client and the resolved engineer; `clientDelivered` /
`adminDelivered` are the oracles for the two gateway calls.  On success
it returns the created row together with the list of phones the OTP was
dispatched to. -/
def createVisit (clientId : Option String) (visitDate : Option Nat)
    (engineerIdBody userId : Option String) (role : Role)
    (client : Option ClientRec) (engineerName : Option String)
    (newOtp : String) (newExpiry now : Nat)
    (adminPhoneSetting envAdminPhone : Option String)
    (clientDelivered adminDelivered : Bool) :
    Except ApiError (WorkerVisit × List String) :=
  match clientId, visitDate with
  | some _, some vd =>
    match targetEngineerOf userId role engineerIdBody with
    | none => .error .validation
    | some eng =>
      match client with
      | none => .error .notFound
      | some c =>
        match engineerName with
        | none => .error .notFound
        | some _ =>
          let visit : WorkerVisit :=
            { engineerId := eng, clientPrimaryContact := c.primaryContact,
              clientName := c.name, visitDate := vd, otp := some newOtp,
              otpExpiresAt := some newExpiry, otpSentAt := some now,
              workerCount := none, remarks := none, verifiedAt := none,
              status := .PENDING }
          let adminPhone := adminPhoneOf adminPhoneSetting envAdminPhone
          let dispatched :=
            [c.primaryContact] ++ (if adminPhone ≠ "" then [adminPhone] else [])
          .ok (visit, dispatched)
  | _, _ => .error .validation

/-- Tail of the worker-visit `resendOTP` after the cooldown guard
(workerVisit.controller.ts lines 190–257): both recipients are contacted,
but only the client-side outcome gates the update, which sets the status
back to PENDING. -/
def resendOTPBody (v : WorkerVisit) (newOtp : String) (newExpiry now : Nat)
    (clientDelivered : Bool) : Except ApiError Unit × WorkerVisit :=
  if ¬ clientDelivered then (.error .deliveryFailure, v)
  else
    (.ok (), { v with otp := some newOtp, otpExpiresAt := some newExpiry,
                      otpSentAt := some now, status := .PENDING })

/-- Embedding of the worker-visit `resendOTP`
(workerVisit.controller.ts lines 140–262).  `adminPhone` and
`adminDelivered` only shape the success payload, never the persisted
row, so they are parameters the state transition ignores. -/
def resendOTP (v : WorkerVisit) (userId newOtp : String) (newExpiry now : Nat)
    (adminPhone : String) (clientDelivered adminDelivered : Bool) :
    Except ApiError Unit × WorkerVisit :=
  if v.engineerId ≠ userId then (.error .accessDenied, v)
  else if v.status = .COMPLETED then (.error .statusConflict, v)
  else
    match v.otpSentAt with
    | some sentAt =>
      match resendCooldown sentAt now with
      | some r => (.error (.rateLimit r), v)
      | none => resendOTPBody v newOtp newExpiry now clientDelivered
    | none => resendOTPBody v newOtp newExpiry now clientDelivered

/-- Embedding of `submitWorkerCountWithWidget`
(workerVisit.controller.ts lines 331–449), following the same provider
conventions as `Appointment.verifyOTPWithWidget`; the validation of
`accessToken`/`workerCount` mirrors the JS falsy checks, and unlike the
appointment path this one rejects a COMPLETED visit. -/
def submitWorkerCountWithWidget (id : String) (accessToken : Option String)
    (workerCount : Option Int) (remarks : Option String)
    (decoded : Option MSG91OTPPayload) (providerSuccess : Bool)
    (lookup : Option WorkerVisit) (userId : String) (now : Nat) :
    Except ApiError Unit × Option WorkerVisit × Bool :=
  match accessToken, workerCount with
  | some tok, some w =>
    if tok = "" ∨ w = 0 then (.error .validation, lookup, false)
    else if w ≤ 0 then (.error .validation, lookup, false)
    else
      match decoded with
      | none => (.error .invalidToken, lookup, false)
      | some p =>
        if p.visitId ≠ some id then (.error .invalidToken, lookup, false)
        else if ¬ providerSuccess then (.error .externalVerification, lookup, true)
        else
          match lookup with
          | none => (.error .notFound, none, true)
          | some v =>
            if v.engineerId ≠ userId then (.error .accessDenied, some v, true)
            else if v.status = .COMPLETED then (.error .statusConflict, some v, true)
            else
              (.ok (), some { v with workerCount := some w, remarks := remarks,
                                     status := .OTP_VERIFIED,
                                     verifiedAt := some now }, true)
  | _, _ => (.error .validation, lookup, false)

end WorkerVisit

/-! ## Sample rows used by the concrete witness instantiations -/

/-- A concrete appointment with a sent, unexpired OTP and one failed
attempt. -/
def sampleAppt : Appointment :=
  { engineerId := "e1", clientPrimaryContact := "9876543210",
    otpMobileNumber := none, otp := some "123456",
    otpExpiresAt := some 1000, otpSentAt := some 0, otpAttempts := 1,
    verifiedAt := none, status := .OTP_SENT, feedback := none }

/-- A concrete pending worker visit with a sent OTP. -/
def sampleVisit : WorkerVisit :=
  { engineerId := "e1", clientPrimaryContact := "9876543210",
    clientName := "Acme", visitDate := 100, otp := some "123456",
    otpExpiresAt := some 86400000, otpSentAt := some 0,
    workerCount := none, remarks := none, verifiedAt := none,
    status := .PENDING }

/-! ## Claim theorems -/

/-- The 429 retry-after value is between 1 and 60 seconds whenever the
elapsed time is a non-negative duration inside the cooldown window. -/
theorem retryAfterBounds (el : Int) (h1 : 0 ≤ el) (h2 : el < 60000) :
    0 < ((60000 : Int) - el + 999).ediv 1000 ∧
    ((60000 : Int) - el + 999).ediv 1000 ≤ 60 := by
  have hlo : (1000 : Int).ediv 1000 ≤ ((60000 : Int) - el + 999).ediv 1000 :=
    Int.ediv_le_ediv (by norm_num) (by omega)
  have hhi : ((60000 : Int) - el + 999).ediv 1000 ≤ (60999 : Int).ediv 1000 :=
    Int.ediv_le_ediv (by norm_num) (by omega)
  have e1 : (1000 : Int).ediv 1000 = 1 := by decide
  have e2 : (60999 : Int).ediv 1000 = 60 := by decide
  omega

/-- Inside the cooldown window the guard fires with the ceiling-rounded
remaining seconds. -/
theorem resendCooldown_active (sentAt now : Nat) (hlt : now < sentAt + 60000) :
    resendCooldown sentAt now =
      some (((60000 : Int) - ((now : Int) - (sentAt : Int)) + 999).ediv 1000) := by
  simp only [resendCooldown]
  rw [if_pos (by omega)]

/-- Once the cooldown window has passed, the guard lets the resend
proceed. -/
theorem resendCooldown_elapsed (sentAt now : Nat) (hge : sentAt + 60000 ≤ now) :
    resendCooldown sentAt now = none := by
  simp only [resendCooldown]
  rw [if_neg (by omega)]

/-- C4: for an appointment `verify` call with a sent, unexpired OTP and
`otpAttempts < 3`: on a code mismatch the attempt counter is incremented
by 1 and the error carries `attemptsRemaining = 2 - previousAttempts`
(the pre-increment count); on a match the status becomes VERIFIED, the
verification timestamp is set, and the counter is still incremented by 1
even on success. -/
theorem C4_verify_attempt_accounting (a : Appointment) (u o code : String)
    (exp now : Nat)
    (hown : a.engineerId = u) (hotp : a.otp = some o) (ho : o ≠ "")
    (hexp : a.otpExpiresAt = some exp) (hfresh : isOTPExpired exp now = false)
    (hatt : a.otpAttempts < 3)
    (hc1 : code ≠ o) (hc2 : code ≠ "000000") (hc3 : code ≠ "") :
    Appointment.verifyOTP a u code now =
      (.error (.otpMismatch ((2 : Int) - (a.otpAttempts : Int))),
       { a with otpAttempts := a.otpAttempts + 1 }) ∧
    Appointment.verifyOTP a u o now =
      (.ok (), { a with status := .VERIFIED, verifiedAt := some now,
                        otpAttempts := a.otpAttempts + 1 }) := by
  have h3 : ¬ 3 ≤ a.otpAttempts := by omega
  constructor
  · simp [Appointment.verifyOTP, hown, hotp, hexp, hfresh, ho, h3, hc2, hc3,
      Ne.symm hc1]
  · simp [Appointment.verifyOTP, hown, hotp, hexp, hfresh, ho, h3]

/-- Witness for C4 at `sampleAppt` (one prior failed attempt). -/
theorem C4_verify_attempt_accounting_witness :
    Appointment.verifyOTP sampleAppt "e1" "999999" 500 =
      (.error (.otpMismatch ((2 : Int) - (sampleAppt.otpAttempts : Int))),
       { sampleAppt with otpAttempts := sampleAppt.otpAttempts + 1 }) ∧
    Appointment.verifyOTP sampleAppt "e1" "123456" 500 =
      (.ok (), { sampleAppt with status := .VERIFIED, verifiedAt := some 500,
                                 otpAttempts := sampleAppt.otpAttempts + 1 }) :=
  C4_verify_attempt_accounting sampleAppt "e1" "123456" "999999" 1000 500
    rfl rfl (by decide) rfl (by decide) (by decide) (by decide) (by decide)
    (by decide)

/-- C5: an appointment `sendOTP` call past the ownership, status and
phone checks mutates nothing and surfaces a delivery failure when the
gateway fails; only on delivery success are the new code, expiry and
send time persisted, the attempt counter reset to 0, and the status
moved to OTP_SENT. -/
theorem C5_send_otp_delivery_gating (a : Appointment) (u newOtp : String)
    (exp now : Nat)
    (hown : a.engineerId = u) (hst : a.status ≠ .COMPLETED)
    (hp1 : recipientPhoneOf a ≠ "") (hp2 : jsTrim (recipientPhoneOf a) ≠ "") :
    Appointment.sendOTP a u newOtp exp now false =
      (.error .deliveryFailure, a) ∧
    Appointment.sendOTP a u newOtp exp now true =
      (.ok (), { a with otp := some newOtp, otpExpiresAt := some exp,
                        otpSentAt := some now, otpAttempts := 0,
                        status := .OTP_SENT }) := by
  constructor
  · simp [Appointment.sendOTP, hown, hst, hp1, hp2]
  · simp [Appointment.sendOTP, hown, hst, hp1, hp2]

/-- Witness for C5 at `sampleAppt`. -/
theorem C5_send_otp_delivery_gating_witness :
    Appointment.sendOTP sampleAppt "e1" "654321" 2000 1200 false =
      (.error .deliveryFailure, sampleAppt) ∧
    Appointment.sendOTP sampleAppt "e1" "654321" 2000 1200 true =
      (.ok (), { sampleAppt with otp := some "654321",
                                 otpExpiresAt := some 2000,
                                 otpSentAt := some 1200, otpAttempts := 0,
                                 status := .OTP_SENT }) :=
  C5_send_otp_delivery_gating sampleAppt "e1" "654321" 2000 1200
    rfl (by decide) (by decide) (by decide)

/-- C6: for appointments and worker visits alike, a resend issued while
fewer than 60 seconds have elapsed since the recorded last OTP-send time
is rejected with a rate-limit error carrying a positive retry-after of
at most 60 seconds, with no state change and no new OTP delivered
(the gateway-outcome oracles `d`, `cd`, `ad` are arbitrary and the
outcome never depends on them). -/
theorem C6_resend_rate_limited (a : Appointment) (v : WorkerVisit)
    (u u' o1 o2 ap : String) (e1 e2 now t1 t2 : Nat) (d cd ad : Bool)
    (hown : a.engineerId = u) (hst : a.status ≠ .COMPLETED)
    (hsent : a.otpSentAt = some t1) (hle : t1 ≤ now)
    (hlt : now < t1 + 60000)
    (hown' : v.engineerId = u') (hst' : v.status ≠ .COMPLETED)
    (hsent' : v.otpSentAt = some t2) (hle' : t2 ≤ now)
    (hlt' : now < t2 + 60000) :
    (∃ r : Int, Appointment.resendOTP a u o1 e1 now d =
        (.error (.rateLimit r), a) ∧ 0 < r ∧ r ≤ 60) ∧
    (∃ r : Int, WorkerVisit.resendOTP v u' o2 e2 now ap cd ad =
        (.error (.rateLimit r), v) ∧ 0 < r ∧ r ≤ 60) := by
  constructor
  · refine ⟨((60000 : Int) - ((now : Int) - (t1 : Int)) + 999).ediv 1000, ?_, ?_⟩
    · simp [Appointment.resendOTP, hown, hst, hsent, resendCooldown_active t1 now hlt]
    · exact retryAfterBounds ((now : Int) - (t1 : Int)) (by omega) (by omega)
  · refine ⟨((60000 : Int) - ((now : Int) - (t2 : Int)) + 999).ediv 1000, ?_, ?_⟩
    · simp [WorkerVisit.resendOTP, hown', hst', hsent', resendCooldown_active t2 now hlt']
    · exact retryAfterBounds ((now : Int) - (t2 : Int)) (by omega) (by omega)

/-- Witness for C6: resends 30 s after the last send are rejected for
both entity kinds. -/
theorem C6_resend_rate_limited_witness :
    (∃ r : Int, Appointment.resendOTP sampleAppt "e1" "654321" 2000 30000 true =
        (.error (.rateLimit r), sampleAppt) ∧ 0 < r ∧ r ≤ 60) ∧
    (∃ r : Int, WorkerVisit.resendOTP sampleVisit "e1" "654321" 2000 30000 "911234512345" true true =
        (.error (.rateLimit r), sampleVisit) ∧ 0 < r ∧ r ≤ 60) :=
  C6_resend_rate_limited sampleAppt sampleVisit "e1" "e1" "654321" "654321"
    "911234512345" 2000 2000 30000 0 0 true true true
    rfl (by decide) rfl (by decide) (by decide)
    rfl (by decide) rfl (by decide) (by decide)

/-- C9: a widget verification on an owned appointment that passes local
token validation and gets a provider-reported success updates only
`status` (to VERIFIED), `verifiedAt` and `otpAttempts`; it never reads
the stored `otp`/`otpExpiresAt` (the outcome is the same for every value
`o`, `e` of those fields), leaves them unchanged, and sets `otpAttempts`
to 0 — whereas the inline verify path increments `otpAttempts` by one on
success. -/
theorem C9_widget_verify_frame (a : Appointment) (id tok u oc : String)
    (p : MSG91OTPPayload) (now exp : Nat) (o : Option String) (e : Option Nat)
    (htok : tok ≠ "") (hp : p.appointmentId = some id)
    (hown : a.engineerId = u)
    (hotp : a.otp = some oc) (hoc : oc ≠ "")
    (hexp : a.otpExpiresAt = some exp) (hfresh : isOTPExpired exp now = false)
    (hatt : a.otpAttempts < 3) :
    Appointment.verifyOTPWithWidget id (some tok) (some p) true (some a) u now =
      (.ok (), some { a with status := .VERIFIED, verifiedAt := some now,
                             otpAttempts := 0 }, true) ∧
    Appointment.verifyOTPWithWidget id (some tok) (some p) true
        (some { a with otp := o, otpExpiresAt := e }) u now =
      (.ok (), some { a with otp := o, otpExpiresAt := e,
                             status := .VERIFIED, verifiedAt := some now,
                             otpAttempts := 0 }, true) ∧
    ({ a with status := AppointmentStatus.VERIFIED, verifiedAt := some now,
              otpAttempts := 0 } : Appointment).otp = a.otp ∧
    ({ a with status := AppointmentStatus.VERIFIED, verifiedAt := some now,
              otpAttempts := 0 } : Appointment).otpExpiresAt = a.otpExpiresAt ∧
    Appointment.verifyOTP a u oc now =
      (.ok (), { a with status := .VERIFIED, verifiedAt := some now,
                        otpAttempts := a.otpAttempts + 1 }) := by
  have h3 : ¬ 3 ≤ a.otpAttempts := by omega
  refine ⟨?_, ?_, rfl, rfl, ?_⟩
  · simp [Appointment.verifyOTPWithWidget, htok, hp, hown]
  · simp [Appointment.verifyOTPWithWidget, htok, hp, hown]
  · simp [Appointment.verifyOTP, hown, hotp, hexp, hfresh, hoc, h3]

/-- Witness for C9 at `sampleAppt`. -/
theorem C9_widget_verify_frame_witness :
    Appointment.verifyOTPWithWidget "a1" (some "tok")
        (some { phone := "919876543210", appointmentId := some "a1", purpose := .appointment }) true
        (some sampleAppt) "e1" 500 =
      (.ok (), some { sampleAppt with status := .VERIFIED,
                                      verifiedAt := some 500,
                                      otpAttempts := 0 }, true) ∧
    Appointment.verifyOTPWithWidget "a1" (some "tok")
        (some { phone := "919876543210", appointmentId := some "a1", purpose := .appointment }) true
        (some { sampleAppt with otp := none, otpExpiresAt := none }) "e1" 500 =
      (.ok (), some { sampleAppt with otp := none, otpExpiresAt := none,
                                      status := .VERIFIED,
                                      verifiedAt := some 500,
                                      otpAttempts := 0 }, true) ∧
    ({ sampleAppt with status := AppointmentStatus.VERIFIED,
                       verifiedAt := some 500,
                       otpAttempts := 0 } : Appointment).otp = sampleAppt.otp ∧
    ({ sampleAppt with status := AppointmentStatus.VERIFIED,
                       verifiedAt := some 500,
                       otpAttempts := 0 } : Appointment).otpExpiresAt
      = sampleAppt.otpExpiresAt ∧
    Appointment.verifyOTP sampleAppt "e1" "123456" 500 =
      (.ok (), { sampleAppt with status := .VERIFIED, verifiedAt := some 500,
                                 otpAttempts := sampleAppt.otpAttempts + 1 }) :=
  C9_widget_verify_frame sampleAppt "a1" "tok" "e1" "123456"
    { phone := "919876543210", appointmentId := some "a1", purpose := .appointment } 500 1000 none none
    (by decide) rfl rfl rfl (by decide) rfl (by decide) (by decide)

/-- C10: a worker visit in status OTP_VERIFIED passes the resend status
guard (only COMPLETED is rejected); once the cooldown has elapsed and
the client-side delivery succeeds, the resend overwrites `otp`,
`otpExpiresAt` and `otpSentAt` and sets the status back to PENDING,
reverting the verified standing while the recorded worker count is kept. -/
theorem C10_visit_resend_reverts_verified (v v2 : WorkerVisit)
    (u newOtp ap : String) (ne now t : Nat) (ad : Bool) (n : Int)
    (hst : v.status = .OTP_VERIFIED) (hown : v.engineerId = u)
    (hsent : v.otpSentAt = some t) (hcool : t + 60000 ≤ now)
    (hwc : v.workerCount = some n)
    (hst2 : v2.status = .COMPLETED) (hown2 : v2.engineerId = u) :
    WorkerVisit.resendOTP v u newOtp ne now ap true ad =
      (.ok (), { v with otp := some newOtp, otpExpiresAt := some ne,
                        otpSentAt := some now, status := .PENDING }) ∧
    ({ v with otp := some newOtp, otpExpiresAt := some ne,
              otpSentAt := some now,
              status := VisitStatus.PENDING } : WorkerVisit).workerCount
      = some n ∧
    ({ v with otp := some newOtp, otpExpiresAt := some ne,
              otpSentAt := some now,
              status := VisitStatus.PENDING } : WorkerVisit).verifiedAt
      = v.verifiedAt ∧
    WorkerVisit.resendOTP v2 u newOtp ne now ap true ad =
      (.error .statusConflict, v2) := by
  refine ⟨?_, by simp [hwc], rfl, ?_⟩
  · simp [WorkerVisit.resendOTP, WorkerVisit.resendOTPBody, hown, hst, hsent,
      resendCooldown_elapsed t now hcool]
  · simp [WorkerVisit.resendOTP, hown2, hst2]

/-- Witness for C10 at a concrete verified visit. -/
theorem C10_visit_resend_reverts_verified_witness :
    WorkerVisit.resendOTP
        { sampleVisit with status := .OTP_VERIFIED, workerCount := some 12,
                           verifiedAt := some 50000 }
        "e1" "654321" 90061000 61000 "911234512345" true false =
      (.ok (), { { sampleVisit with status := .OTP_VERIFIED,
                                    workerCount := some 12,
                                    verifiedAt := some 50000 } with
                 otp := some "654321", otpExpiresAt := some 90061000,
                 otpSentAt := some 61000, status := .PENDING }) ∧
    ({ { sampleVisit with status := .OTP_VERIFIED, workerCount := some 12,
                          verifiedAt := some 50000 } with
       otp := some "654321", otpExpiresAt := some 90061000,
       otpSentAt := some 61000,
       status := VisitStatus.PENDING } : WorkerVisit).workerCount = some 12 ∧
    ({ { sampleVisit with status := .OTP_VERIFIED, workerCount := some 12,
                          verifiedAt := some 50000 } with
       otp := some "654321", otpExpiresAt := some 90061000,
       otpSentAt := some 61000,
       status := VisitStatus.PENDING } : WorkerVisit).verifiedAt
      = ({ sampleVisit with status := .OTP_VERIFIED, workerCount := some 12,
                            verifiedAt := some 50000 } : WorkerVisit).verifiedAt ∧
    WorkerVisit.resendOTP { sampleVisit with status := .COMPLETED }
        "e1" "654321" 90061000 61000 "911234512345" true false =
      (.error .statusConflict, { sampleVisit with status := .COMPLETED }) :=
  C10_visit_resend_reverts_verified
    { sampleVisit with status := .OTP_VERIFIED, workerCount := some 12,
                       verifiedAt := some 50000 }
    { sampleVisit with status := .COMPLETED }
    "e1" "654321" "911234512345" 90061000 61000 0 false 12
    rfl rfl rfl (by decide) rfl rfl rfl

/-- C8: a widget-verify call (appointment or worker visit) whose token
fails to decode, or decodes to an entity id different from the path
parameter, is rejected before the provider token-verification endpoint
is contacted (the provider-reached flag is `false`); conversely the
provider is contacted only when the local decode succeeded with a
matching id. -/
theorem C8_widget_local_validation_gates_provider
    (id tok u : String) (ps : Bool) (la : Option Appointment)
    (lv : Option WorkerVisit) (p q : MSG91OTPPayload)
    (dec : Option MSG91OTPPayload) (w : Int) (rm : Option String) (now : Nat)
    (htok : tok ≠ "") (hpa : p.appointmentId ≠ some id)
    (hqv : q.visitId ≠ some id) (hw : 0 < w) :
    Appointment.verifyOTPWithWidget id (some tok) none ps la u now =
      (.error .invalidToken, la, false) ∧
    Appointment.verifyOTPWithWidget id (some tok) (some p) ps la u now =
      (.error .invalidToken, la, false) ∧
    ((Appointment.verifyOTPWithWidget id (some tok) dec ps la u now).2.2 = true →
      ∃ r, dec = some r ∧ r.appointmentId = some id) ∧
    WorkerVisit.submitWorkerCountWithWidget id (some tok) (some w) rm none ps lv u now =
      (.error .invalidToken, lv, false) ∧
    WorkerVisit.submitWorkerCountWithWidget id (some tok) (some w) rm (some q) ps lv u now =
      (.error .invalidToken, lv, false) ∧
    ((WorkerVisit.submitWorkerCountWithWidget id (some tok) (some w) rm dec ps lv u now).2.2 = true →
      ∃ r, dec = some r ∧ r.visitId = some id) := by
  have hw0 : w ≠ 0 := by omega
  have hwle : ¬ w ≤ 0 := by omega
  refine ⟨?_, ?_, ?_, ?_, ?_, ?_⟩
  · simp [Appointment.verifyOTPWithWidget, htok]
  · simp [Appointment.verifyOTPWithWidget, htok, hpa]
  · intro h
    match dec with
    | none => simp [Appointment.verifyOTPWithWidget, htok] at h
    | some r =>
      by_cases hr : r.appointmentId = some id
      · exact ⟨r, rfl, hr⟩
      · simp [Appointment.verifyOTPWithWidget, htok, hr] at h
  · simp [WorkerVisit.submitWorkerCountWithWidget, htok, hw0, hwle]
  · simp [WorkerVisit.submitWorkerCountWithWidget, htok, hw0, hwle, hqv]
  · intro h
    match dec with
    | none => simp [WorkerVisit.submitWorkerCountWithWidget, htok, hw0, hwle] at h
    | some r =>
      by_cases hr : r.visitId = some id
      · exact ⟨r, rfl, hr⟩
      · simp [WorkerVisit.submitWorkerCountWithWidget, htok, hw0, hwle, hr] at h

/-- Witness for C8: a cross-bound token (issued for a different entity
id) never reaches the provider on either path. -/
theorem C8_widget_local_validation_gates_provider_witness :
    Appointment.verifyOTPWithWidget "a1" (some "tok") none true
        (some sampleAppt) "e1" 500 =
      (.error .invalidToken, some sampleAppt, false) ∧
    Appointment.verifyOTPWithWidget "a1" (some "tok")
        (some { phone := "919876543210", appointmentId := some "other", purpose := .appointment }) true
        (some sampleAppt) "e1" 500 =
      (.error .invalidToken, some sampleAppt, false) ∧
    ((Appointment.verifyOTPWithWidget "a1" (some "tok")
        (some { phone := "919876543210", appointmentId := some "a1", purpose := .appointment }) true
        (some sampleAppt) "e1" 500).2.2 = true →
      ∃ r, (some { phone := "919876543210", appointmentId := some "a1",
                   purpose := .appointment } : Option MSG91OTPPayload) = some r ∧
        r.appointmentId = some "a1") ∧
    WorkerVisit.submitWorkerCountWithWidget "a1" (some "tok") (some 12) none
        none true (some sampleVisit) "e1" 500 =
      (.error .invalidToken, some sampleVisit, false) ∧
    WorkerVisit.submitWorkerCountWithWidget "a1" (some "tok") (some 12) none
        (some { phone := "919876543210", visitId := some "other", purpose := .worker_visit }) true
        (some sampleVisit) "e1" 500 =
      (.error .invalidToken, some sampleVisit, false) ∧
    ((WorkerVisit.submitWorkerCountWithWidget "a1" (some "tok") (some 12) none
        (some { phone := "919876543210", appointmentId := some "a1", purpose := .appointment }) true
        (some sampleVisit) "e1" 500).2.2 = true →
      ∃ r, (some { phone := "919876543210", appointmentId := some "a1",
                   purpose := .appointment } : Option MSG91OTPPayload) = some r ∧
        r.visitId = some "a1") :=
  C8_widget_local_validation_gates_provider "a1" "tok" "e1" true
    (some sampleAppt) (some sampleVisit)
    { phone := "919876543210", appointmentId := some "other", purpose := .appointment }
    { phone := "919876543210", visitId := some "other", purpose := .worker_visit }
    (some { phone := "919876543210", appointmentId := some "a1", purpose := .appointment }) 12 none 500
    (by decide) (by decide) (by decide) (by decide)

/-- A concrete COMPLETED appointment used to refute C1. -/
def completedAppt : Appointment :=
  { engineerId := "e1", clientPrimaryContact := "9876543210",
    otpMobileNumber := none, otp := some "123456",
    otpExpiresAt := some 1000, otpSentAt := some 0, otpAttempts := 2,
    verifiedAt := some 900, status := .COMPLETED,
    feedback := some "visit went fine" }

/-- C1 counterexample: the terminal state COMPLETED is not immutable —
`verifyOTPWithWidget` performs no status check, so on a COMPLETED
appointment a valid widget token with a provider-reported success moves
the status back to VERIFIED. -/
theorem C1_counterexample :
    completedAppt.status = .COMPLETED ∧
    Appointment.verifyOTPWithWidget "a1" (some "tok")
        (some { phone := "919876543210", appointmentId := some "a1", purpose := .appointment }) true
        (some completedAppt) "e1" 2000 =
      (.ok (), some { completedAppt with status := .VERIFIED,
                                         verifiedAt := some 2000,
                                         otpAttempts := 0 }, true) ∧
    ({ completedAppt with status := AppointmentStatus.VERIFIED,
                          verifiedAt := some 2000,
                          otpAttempts := 0 } : Appointment).status
      = .VERIFIED := by
  refine ⟨rfl, ?_, rfl⟩
  simp [Appointment.verifyOTPWithWidget, completedAppt]

/-- C1 as amended: the operations guard the status only as follows —
`sendOTP` and `resendOTP` reject exactly COMPLETED, `submitFeedback`
requires VERIFIED (and then moves it forward to COMPLETED), while the
inline and widget verification paths perform no status guard at all.
Consequently CANCELLED is not immutable (`sendOTP` on a CANCELLED
appointment succeeds and moves it to OTP_SENT), `sendOTP` likewise
moves a VERIFIED appointment back to OTP_SENT, the inline `verifyOTP`
re-verifies even a COMPLETED appointment whose stored OTP is still
fresh, and `verifyOTPWithWidget` moves even a COMPLETED appointment
back to VERIFIED. -/
theorem C1_status_guard_reality (a b c : Appointment)
    (u otp' tok id fb o : String) (p : MSG91OTPPayload) (exp ne now : Nat)
    (d : Bool)
    (ha : a.status = .COMPLETED) (hb : b.status = .CANCELLED)
    (hc : c.status = .VERIFIED)
    (hoa : a.engineerId = u) (hob : b.engineerId = u) (hoc : c.engineerId = u)
    (hp1 : recipientPhoneOf b ≠ "") (hp2 : jsTrim (recipientPhoneOf b) ≠ "")
    (hp1c : recipientPhoneOf c ≠ "") (hp2c : jsTrim (recipientPhoneOf c) ≠ "")
    (htok : tok ≠ "") (hpid : p.appointmentId = some id)
    (hfb : fb ≠ "") (hfb10 : 10 ≤ (jsTrim fb).length)
    (hao : a.otp = some o) (ho : o ≠ "") (hae : a.otpExpiresAt = some exp)
    (hfresh : isOTPExpired exp now = false) (hatt : a.otpAttempts < 3) :
    Appointment.sendOTP a u otp' ne now d = (.error .statusConflict, a) ∧
    Appointment.resendOTP a u otp' ne now d = (.error .statusConflict, a) ∧
    Appointment.submitFeedback a u fb = (.error .statusConflict, a) ∧
    Appointment.verifyOTPWithWidget id (some tok) (some p) true (some a) u now =
      (.ok (), some { a with status := .VERIFIED, verifiedAt := some now,
                             otpAttempts := 0 }, true) ∧
    Appointment.verifyOTP a u o now =
      (.ok (), { a with status := .VERIFIED, verifiedAt := some now,
                        otpAttempts := a.otpAttempts + 1 }) ∧
    Appointment.sendOTP b u otp' ne now true =
      (.ok (), { b with otp := some otp', otpExpiresAt := some ne,
                        otpSentAt := some now, otpAttempts := 0,
                        status := .OTP_SENT }) ∧
    Appointment.sendOTP c u otp' ne now true =
      (.ok (), { c with otp := some otp', otpExpiresAt := some ne,
                        otpSentAt := some now, otpAttempts := 0,
                        status := .OTP_SENT }) ∧
    Appointment.submitFeedback c u fb =
      (.ok (), { c with feedback := some (jsTrim fb), status := .COMPLETED }) := by
  have hfb' : ¬ (jsTrim fb).length < 10 := by omega
  have h3 : ¬ 3 ≤ a.otpAttempts := by omega
  refine ⟨?_, ?_, ?_, ?_, ?_, ?_, ?_, ?_⟩
  · simp [Appointment.sendOTP, hoa, ha]
  · simp [Appointment.resendOTP, hoa, ha]
  · simp [Appointment.submitFeedback, hoa, ha, hfb, hfb']
  · simp [Appointment.verifyOTPWithWidget, htok, hpid, hoa]
  · simp [Appointment.verifyOTP, hoa, hao, hae, hfresh, ho, h3]
  · simp [Appointment.sendOTP, hob, hb, hp1, hp2]
  · simp [Appointment.sendOTP, hoc, hc, hp1c, hp2c]
  · simp [Appointment.submitFeedback, hoc, hc, hfb, hfb']

/-- Witness for the amended C1 at concrete COMPLETED, CANCELLED and
VERIFIED appointments. -/
theorem C1_status_guard_reality_witness :
    Appointment.sendOTP completedAppt "e1" "654321" 3000 500 true =
      (.error .statusConflict, completedAppt) ∧
    Appointment.resendOTP completedAppt "e1" "654321" 3000 500 true =
      (.error .statusConflict, completedAppt) ∧
    Appointment.submitFeedback completedAppt "e1" "plenty of feedback" =
      (.error .statusConflict, completedAppt) ∧
    Appointment.verifyOTPWithWidget "a1" (some "tok")
        (some { phone := "919876543210", appointmentId := some "a1",
                purpose := .appointment }) true
        (some completedAppt) "e1" 500 =
      (.ok (), some { completedAppt with status := .VERIFIED,
                                         verifiedAt := some 500,
                                         otpAttempts := 0 }, true) ∧
    Appointment.verifyOTP completedAppt "e1" "123456" 500 =
      (.ok (), { completedAppt with status := .VERIFIED,
                                    verifiedAt := some 500,
                                    otpAttempts :=
                                      completedAppt.otpAttempts + 1 }) ∧
    Appointment.sendOTP { sampleAppt with status := .CANCELLED } "e1" "654321"
        3000 500 true =
      (.ok (), { { sampleAppt with status := AppointmentStatus.CANCELLED } with
                 otp := some "654321", otpExpiresAt := some 3000,
                 otpSentAt := some 500, otpAttempts := 0,
                 status := .OTP_SENT }) ∧
    Appointment.sendOTP { sampleAppt with status := .VERIFIED } "e1" "654321"
        3000 500 true =
      (.ok (), { { sampleAppt with status := AppointmentStatus.VERIFIED } with
                 otp := some "654321", otpExpiresAt := some 3000,
                 otpSentAt := some 500, otpAttempts := 0,
                 status := .OTP_SENT }) ∧
    Appointment.submitFeedback { sampleAppt with status := .VERIFIED } "e1"
        "plenty of feedback" =
      (.ok (), { { sampleAppt with status := AppointmentStatus.VERIFIED } with
                 feedback := some (jsTrim "plenty of feedback"),
                 status := .COMPLETED }) :=
  C1_status_guard_reality completedAppt
    { sampleAppt with status := .CANCELLED }
    { sampleAppt with status := .VERIFIED }
    "e1" "654321" "tok" "a1" "plenty of feedback" "123456"
    { phone := "919876543210", appointmentId := some "a1",
      purpose := .appointment } 1000 3000 500 true
    rfl rfl rfl rfl rfl rfl (by decide) (by decide) (by decide) (by decide)
    (by decide) rfl (by decide) (by decide) rfl (by decide) rfl (by decide)
    (by decide)

/-- A concrete appointment with a fresh OTP and no attempts yet, used
for the C2 three-wrong-calls run. -/
def freshOtpAppt : Appointment :=
  { engineerId := "e1", clientPrimaryContact := "9876543210",
    otpMobileNumber := none, otp := some "111111",
    otpExpiresAt := some 1000, otpSentAt := some 0, otpAttempts := 0,
    verifiedAt := none, status := .OTP_SENT, feedback := none }

/-- C2 counterexample: starting from `otpAttempts = 0`, the state before
the third wrong-code call has `otpAttempts = 2`, yet that third call is
answered with the mismatch error (`attemptsRemaining 0`), not with the
attempts-exceeded error — the guard is `otpAttempts >= 3`, so at
`attempts == 2` the submitted code IS compared. -/
theorem C2_counterexample :
    ((Appointment.verifyOTP ((Appointment.verifyOTP
        ((Appointment.verifyOTP freshOtpAppt "e1" "999999" 500).2)
        "e1" "999999" 500).2) "e1" "999999" 500).1
      = .error (.otpMismatch 0)) ∧
    (((Appointment.verifyOTP ((Appointment.verifyOTP freshOtpAppt "e1"
        "999999" 500).2) "e1" "999999" 500).2).otpAttempts = 2) ∧
    ((.error (.otpMismatch 0) : Except ApiError Unit)
      ≠ .error .otpAttemptsExceeded) := by
  decide

/-- C2 as amended: the attempts guard is `otpAttempts >= 3`.  With the
counter at 3 or more, `verify` fails with the attempts-exceeded error
before any code comparison (the same outcome for every submitted code,
with no increment), and the check order is: OTP present, expiry,
attempts, code match — so an expired OTP still reports expiry first even
when the counter is exhausted.  In a run of three consecutive wrong-code
calls from `otpAttempts = 0`, each call is a mismatch (remaining 2, 1,
then 0) leaving the counter at 3, and the fourth call with the correct
code fails with attempts-exceeded and no further increment. -/
theorem C2_attempt_limit_reality (a b : Appointment) (u o code w : String)
    (exp exp2 now : Nat)
    (hoa : a.engineerId = u) (hao : a.otp = some o) (ho : o ≠ "")
    (hae : a.otpExpiresAt = some exp) (hfresh : isOTPExpired exp now = false)
    (h3 : 3 ≤ a.otpAttempts) (hcode : code ≠ "")
    (hexp2 : isOTPExpired exp2 now = true)
    (hob : b.engineerId = u) (hbo : b.otp = some o)
    (hbe : b.otpExpiresAt = some exp) (hb0 : b.otpAttempts = 0)
    (hw1 : w ≠ o) (hw2 : w ≠ "000000") (hw3 : w ≠ "") :
    Appointment.verifyOTP a u code now = (.error .otpAttemptsExceeded, a) ∧
    Appointment.verifyOTP { a with otpExpiresAt := some exp2 } u code now =
      (.error .otpExpired, { a with otpExpiresAt := some exp2 }) ∧
    Appointment.verifyOTP b u w now =
      (.error (.otpMismatch 2), { b with otpAttempts := 1 }) ∧
    Appointment.verifyOTP { b with otpAttempts := 1 } u w now =
      (.error (.otpMismatch 1), { b with otpAttempts := 2 }) ∧
    Appointment.verifyOTP { b with otpAttempts := 2 } u w now =
      (.error (.otpMismatch 0), { b with otpAttempts := 3 }) ∧
    Appointment.verifyOTP { b with otpAttempts := 3 } u o now =
      (.error .otpAttemptsExceeded, { b with otpAttempts := 3 }) := by
  refine ⟨?_, ?_, ?_, ?_, ?_, ?_⟩
  · simp [Appointment.verifyOTP, hoa, hao, hae, hfresh, ho, h3, hcode]
  · simp [Appointment.verifyOTP, hoa, hao, hexp2, ho, hcode]
  · simp [Appointment.verifyOTP, hob, hbo, hbe, hfresh, ho, hb0, hw2, hw3,
      Ne.symm hw1]
  · simp [Appointment.verifyOTP, hob, hbo, hbe, hfresh, ho, hw2, hw3,
      Ne.symm hw1]
  · simp [Appointment.verifyOTP, hob, hbo, hbe, hfresh, ho, hw2, hw3,
      Ne.symm hw1]
  · simp [Appointment.verifyOTP, hob, hbo, hbe, hfresh, ho]

/-- Witness for the amended C2 at the concrete run appointment. -/
theorem C2_attempt_limit_reality_witness :
    Appointment.verifyOTP { freshOtpAppt with otpAttempts := 3 } "e1"
        "111111" 500 =
      (.error .otpAttemptsExceeded, { freshOtpAppt with otpAttempts := 3 }) ∧
    Appointment.verifyOTP { { freshOtpAppt with otpAttempts := 3 } with
        otpExpiresAt := some 400 } "e1" "111111" 500 =
      (.error .otpExpired, { { freshOtpAppt with otpAttempts := 3 } with
        otpExpiresAt := some 400 }) ∧
    Appointment.verifyOTP freshOtpAppt "e1" "999999" 500 =
      (.error (.otpMismatch 2), { freshOtpAppt with otpAttempts := 1 }) ∧
    Appointment.verifyOTP { freshOtpAppt with otpAttempts := 1 } "e1"
        "999999" 500 =
      (.error (.otpMismatch 1), { freshOtpAppt with otpAttempts := 2 }) ∧
    Appointment.verifyOTP { freshOtpAppt with otpAttempts := 2 } "e1"
        "999999" 500 =
      (.error (.otpMismatch 0), { freshOtpAppt with otpAttempts := 3 }) ∧
    Appointment.verifyOTP { freshOtpAppt with otpAttempts := 3 } "e1"
        "111111" 500 =
      (.error .otpAttemptsExceeded, { freshOtpAppt with otpAttempts := 3 }) :=
  C2_attempt_limit_reality { freshOtpAppt with otpAttempts := 3 } freshOtpAppt
    "e1" "111111" "111111" "999999" 1000 400 500
    rfl rfl (by decide) rfl (by decide) (by decide) (by decide) (by decide)
    rfl rfl rfl rfl (by decide) (by decide) (by decide)

/-- C3 counterexample: `createVisit` with both gateway oracles set to
`false` (in particular the client-side delivery failed) still succeeds
and persists the visit row with `otp`, `otpExpiresAt` and `otpSentAt`
set — the row is created before the sends and the delivery results are
never consulted. -/
theorem C3_counterexample :
    WorkerVisit.createVisit (some "c1") (some 100) none (some "e1") .ENGINEER
        (some { name := "Acme", primaryContact := "9876543210" })
        (some "Engineer One") "123456" 86400100 100 none none false false =
      .ok ({ engineerId := "e1", clientPrimaryContact := "9876543210",
             clientName := "Acme", visitDate := 100, otp := some "123456",
             otpExpiresAt := some 86400100, otpSentAt := some 100,
             workerCount := none, remarks := none, verifiedAt := none,
             status := .PENDING }, ["9876543210"]) := by
  decide

/-- C3 as amended: `createVisit` persists the OTP fields of the visit
unconditionally when the row is created, before either delivery is
attempted, and its outcome is identical for every combination of the two
per-recipient delivery results; the per-recipient tracking with the
client-side delivery as hard persistence precondition applies only to
the worker-visit `resendOTP`, which errors without any state change when
the client-side delivery fails and persists (setting status back to
PENDING) when it succeeds. -/
theorem C3_create_visit_persists_unconditionally
    (cid en newOtp u ap : String) (vd ne now t : Nat)
    (engB uid aps env : Option String) (role : Role) (c : ClientRec)
    (eng : String) (cd ad cd' ad' : Bool) (v : WorkerVisit) (ovd : Bool)
    (htgt : WorkerVisit.targetEngineerOf uid role engB = some eng)
    (hv : v.engineerId = u) (hvst : v.status ≠ .COMPLETED)
    (hsent : v.otpSentAt = some t) (hcool : t + 60000 ≤ now) :
    WorkerVisit.createVisit (some cid) (some vd) engB uid role (some c)
        (some en) newOtp ne now aps env cd ad =
      WorkerVisit.createVisit (some cid) (some vd) engB uid role (some c)
        (some en) newOtp ne now aps env cd' ad' ∧
    WorkerVisit.createVisit (some cid) (some vd) engB uid role (some c)
        (some en) newOtp ne now aps env cd ad =
      .ok ({ engineerId := eng, clientPrimaryContact := c.primaryContact,
             clientName := c.name, visitDate := vd, otp := some newOtp,
             otpExpiresAt := some ne, otpSentAt := some now,
             workerCount := none, remarks := none, verifiedAt := none,
             status := .PENDING },
           [c.primaryContact] ++
             (if adminPhoneOf aps env ≠ "" then [adminPhoneOf aps env]
              else [])) ∧
    WorkerVisit.resendOTP v u newOtp ne now ap false ovd =
      (.error .deliveryFailure, v) ∧
    WorkerVisit.resendOTP v u newOtp ne now ap true ovd =
      (.ok (), { v with otp := some newOtp, otpExpiresAt := some ne,
                        otpSentAt := some now, status := .PENDING }) := by
  refine ⟨rfl, ?_, ?_, ?_⟩
  · simp [WorkerVisit.createVisit, htgt]
  · simp [WorkerVisit.resendOTP, WorkerVisit.resendOTPBody, hv, hvst, hsent,
      resendCooldown_elapsed t now hcool]
  · simp [WorkerVisit.resendOTP, WorkerVisit.resendOTPBody, hv, hvst, hsent,
      resendCooldown_elapsed t now hcool]

/-- Witness for the amended C3 at concrete inputs. -/
theorem C3_create_visit_persists_unconditionally_witness :
    WorkerVisit.createVisit (some "c1") (some 100) none (some "e1") .ENGINEER
        (some { name := "Acme", primaryContact := "9876543210" })
        (some "Engineer One") "123456" 86400100 61000 none none false false =
      WorkerVisit.createVisit (some "c1") (some 100) none (some "e1") .ENGINEER
        (some { name := "Acme", primaryContact := "9876543210" })
        (some "Engineer One") "123456" 86400100 61000 none none true true ∧
    WorkerVisit.createVisit (some "c1") (some 100) none (some "e1") .ENGINEER
        (some { name := "Acme", primaryContact := "9876543210" })
        (some "Engineer One") "123456" 86400100 61000 none none false false =
      .ok ({ engineerId := "e1",
             clientPrimaryContact :=
               ({ name := "Acme", primaryContact := "9876543210" } : ClientRec).primaryContact,
             clientName := ({ name := "Acme", primaryContact := "9876543210" } : ClientRec).name,
             visitDate := 100, otp := some "123456",
             otpExpiresAt := some 86400100, otpSentAt := some 61000,
             workerCount := none, remarks := none, verifiedAt := none,
             status := .PENDING },
           [({ name := "Acme", primaryContact := "9876543210" } : ClientRec).primaryContact] ++
             (if adminPhoneOf none none ≠ "" then [adminPhoneOf none none]
              else [])) ∧
    WorkerVisit.resendOTP sampleVisit "e1" "123456" 86400100 61000
        "911234512345" false false =
      (.error .deliveryFailure, sampleVisit) ∧
    WorkerVisit.resendOTP sampleVisit "e1" "123456" 86400100 61000
        "911234512345" true false =
      (.ok (), { sampleVisit with otp := some "123456",
                                  otpExpiresAt := some 86400100,
                                  otpSentAt := some 61000,
                                  status := .PENDING }) :=
  C3_create_visit_persists_unconditionally "c1" "Engineer One" "123456" "e1"
    "911234512345" 100 86400100 61000 0 none (some "e1") none none .ENGINEER
    { name := "Acme", primaryContact := "9876543210" } "e1" false false true
    true sampleVisit false rfl rfl (by decide) rfl (by decide)

/-- C7 counterexample: `"9123456789"` is a 10-digit input (after
stripping non-digits), yet `normalizePhoneNumber` fails on it: because
the digits happen to begin with `"91"` the input is routed into the
country-code branch, where 10 < 12 digits means `null`. -/
theorem C7_counterexample :
    (stripNonDigits "9123456789").length = 10 ∧
    normalizePhoneNumber "9123456789" = none := by
  decide

/-- C7 as amended: for every input whose digit-stripped form has exactly
10 digits and does NOT already begin with the national prefix `"91"`,
`normalizePhoneNumber` prepends the prefix and returns a string of
exactly 12 digits, never failing; a 10-digit input that does begin with
`"91"` is instead rejected (`null`) by the prefix branch. -/
theorem C7_ten_digit_normalization (phone ph2 : String)
    (h10 : (stripNonDigits phone).length = 10)
    (h91 : startsWith91 (stripNonDigits phone) = false)
    (h10' : (stripNonDigits ph2).length = 10)
    (h91' : startsWith91 (stripNonDigits ph2) = true) :
    normalizePhoneNumber phone = some ("91" ++ stripNonDigits phone) ∧
    ("91" ++ stripNonDigits phone).length = 12 ∧
    normalizePhoneNumber ph2 = none := by
  have hp : phone ≠ "" := by
    intro h
    rw [h] at h10
    simp [stripNonDigits] at h10
  have hc : stripNonDigits phone ≠ "" := by
    intro h
    rw [h] at h10
    simp at h10
  have hp2 : ph2 ≠ "" := by
    intro h
    rw [h] at h10'
    simp [stripNonDigits] at h10'
  have hc2 : stripNonDigits ph2 ≠ "" := by
    intro h
    rw [h] at h10'
    simp at h10'
  refine ⟨?_, ?_, ?_⟩
  · simp [normalizePhoneNumber, hp, hc, h91, h10]
  · rw [String.length_append, h10]
    decide
  · simp [normalizePhoneNumber, hp2, hc2, h91', h10']

/-- Witness for the amended C7 at a spaced 10-digit number and at the
91-leading 10-digit number. -/
theorem C7_ten_digit_normalization_witness :
    normalizePhoneNumber "98765 43210" =
      some ("91" ++ stripNonDigits "98765 43210") ∧
    ("91" ++ stripNonDigits "98765 43210").length = 12 ∧
    normalizePhoneNumber "9123456789" = none :=
  C7_ten_digit_normalization "98765 43210" "9123456789"
    (by decide) (by decide) (by decide) (by decide)

end Concreexpo
